import Mathlib

/-!
Shallow embedding of the `RPCEndpoint` class from `tools/efro/rpc.py`.

The endpoint's mutable attributes relevant to `send_message`, `close`,
`wait_closed` and the response handler are collected in `EndpointState`.
Each Python method (or each synchronous section of an `async` method,
delimited by its `await` points) becomes a pure function from a state to a
state plus an explicit outcome.  Exceptions are represented by outcome
constructors rather than by an error monad so that the state at the moment
an exception propagates stays visible.  Asyncio task objects and the
transport are outside the modelled state; the explicit
`msgobj.wait_task.cancel()` performed by the timeout branch of
`send_message` (rpc.py line 240) is recorded in `cancelledWaiters`.
-/

/-- Big-endian two-byte encoding, `n.to_bytes(2, 'big')` in the source
(rpc.py lines 210-212, 500-502).  Callers guarantee `n < 65536`; Python
would raise `OverflowError` otherwise. -/
def toBytes2 (n : Nat) : List Nat := [n / 256, n % 256]

/-- The mutable endpoint attributes the verified operations touch:
`_closing`, `_did_wait_closed`, `_next_message_id`, `_in_flight_messages`
(an association list from a 16-bit id to an optional delivered response,
standing for the `_InFlightMessage` object's `_response` field),
`_out_packets`, the `_have_out_packets` flag, and the record of waiter
tasks explicitly cancelled by `send_message`. -/
structure EndpointState where
  closing : Bool
  didWaitClosed : Bool
  nextMessageId : Nat
  inFlight : List (Nat × Option (List Nat))
  outPackets : List (List Nat)
  haveOutPackets : Bool
  cancelledWaiters : List Nat
deriving DecidableEq, Repr

/-- The state set up by `RPCEndpoint.__init__` (rpc.py lines 104-142):
not closing, latch unset, `_next_message_id = 65530` (deliberately near
the wrap point), empty in-flight table and outgoing queue. -/
def initialEndpoint : EndpointState :=
  { closing := false
    didWaitClosed := false
    nextMessageId := 65530
    inFlight := []
    outPackets := []
    haveOutPackets := false
    cancelledWaiters := [] }

/-- `_enqueue_outgoing_packet` (rpc.py lines 546-557): append the packet
and set the `_have_out_packets` event. -/
def enqueueOutgoingPacket (st : EndpointState) (data : List Nat) : EndpointState :=
  { st with outPackets := st.outPackets ++ [data], haveOutPackets := true }

/-- Outcome of the synchronous part of `send_message`. -/
inductive SendResult
  /-- `RuntimeError('Message cannot be larger than 65535 bytes')`, line 199.
  The spec calls this the invalid-argument error. -/
  | invalidArgument
  /-- `CommunicationError('Endpoint is closed')`, line 202. -/
  | communicationError
  /-- The `assert message_id not in self._in_flight_messages` at line 215
  fails, raising `AssertionError`. -/
  | assertionFailed
  /-- The message was accepted and this id allocated for it. -/
  | accepted (id : Nat)
deriving DecidableEq, Repr

/-- Program-order events inside `send_message`, used to settle in which
order the packet enqueue and the in-flight-table insert happen. -/
inductive SendEvent
  | enqueuePacket (packet : List Nat)
  | tableInsert (id : Nat)
deriving DecidableEq, Repr

/-- The synchronous section of `send_message` (rpc.py lines 188-220), up
to the `await asyncio.wait_for(...)`: size check (line 198), closing check
(line 201), id allocation and wrapping increment (lines 205-206), MESSAGE
packet construction and enqueue (lines 209-212), the no-collision assert
(line 215) and the in-flight-table insert (line 216).  The returned event
list records the enqueue and the insert in program order. -/
def sendMessageStart (st : EndpointState) (message : List Nat) :
    EndpointState × SendResult × List SendEvent :=
  if message.length > 65535 then
    (st, SendResult.invalidArgument, [])
  else if st.closing then
    (st, SendResult.communicationError, [])
  else
    let messageId := st.nextMessageId
    let st1 := { st with nextMessageId := (st.nextMessageId + 1) % 65536 }
    let packet :=
      2 :: (toBytes2 messageId ++ toBytes2 message.length ++ message)
    let st2 := enqueueOutgoingPacket st1 packet
    if (st2.inFlight.lookup messageId).isSome then
      (st2, SendResult.assertionFailed, [SendEvent.enqueuePacket packet])
    else
      ({ st2 with inFlight := st2.inFlight ++ [(messageId, none)] },
       SendResult.accepted messageId,
       [SendEvent.enqueuePacket packet, SendEvent.tableInsert messageId])

/-- The `except asyncio.TimeoutError` branch of `send_message` (rpc.py
lines 235-246): cancel the waiter task, delete the in-flight entry, then
raise `CommunicationError`. -/
def sendMessageTimeoutBranch (st : EndpointState) (messageId : Nat) : EndpointState :=
  { st with
    cancelledWaiters := messageId :: st.cancelledWaiters
    inFlight := st.inFlight.filter (fun e => e.1 ≠ messageId) }

/-- The `except asyncio.CancelledError` branch of `send_message` (rpc.py
lines 231-234): a debug print and `raise CommunicationError() from exc`.
No cleanup code appears in this branch, so the endpoint state is
unchanged. -/
def sendMessageCancelBranch (st : EndpointState) (_messageId : Nat) : EndpointState :=
  st

/-- The success path of `send_message` (rpc.py line 230): the
`await asyncio.wait_for(msgobj.wait_task, ...)` resumes with the delivered
response and `send_message` returns it.  No statement after the `return`
mutates the endpoint, so the state is returned unchanged alongside the
response recorded in the in-flight entry (if any). -/
def sendMessageSuccessReturn (st : EndpointState) (messageId : Nat) :
    EndpointState × Option (List Nat) :=
  (st,
   match st.inFlight.lookup messageId with
   | some (some rsp) => some rsp
   | _ => none)

/-- Outcome of `_handle_response_packet`. -/
inductive ResponseHandling
  /-- No in-flight entry for the id: a debug print and nothing else. -/
  | ignored
  /-- `msgobj.set_response(rsp)` stored the response. -/
  | delivered
  /-- `set_response` hit its `assert self._response is None` (line 71). -/
  | assertionFailed
deriving DecidableEq, Repr

/-- `_handle_response_packet` (rpc.py lines 387-403) after the id and
response bytes have been read from the stream: look the id up in
`_in_flight_messages`; if absent, only a debug print happens; otherwise
`set_response` records the response in the entry (the entry itself is not
removed). -/
def handleResponsePacket (st : EndpointState) (msgid : Nat) (rsp : List Nat) :
    EndpointState × ResponseHandling :=
  match st.inFlight.lookup msgid with
  | none => (st, ResponseHandling.ignored)
  | some none =>
      ({ st with
         inFlight :=
           st.inFlight.map (fun e => if e.1 = msgid then (e.1, some rsp) else e) },
       ResponseHandling.delivered)
  | some (some _) => (st, ResponseHandling.assertionFailed)

/-- `close` (rpc.py lines 248-272): return immediately if already closing,
otherwise set `_closing`.  Cancelling the live task handles and closing
the stream writer act on asyncio objects outside the modelled state. -/
def closeEndpoint (st : EndpointState) : EndpointState :=
  if st.closing then st else { st with closing := true }

/-- Outcome of `wait_closed`. -/
inductive WaitClosedOutcome
  /-- The `_did_wait_closed` latch was already set: returned immediately. -/
  | alreadyDone
  /-- `RuntimeError('Must be called after close()')`, line 288. -/
  | raisedRuntimeError
  /-- The full wait (gather live tasks, await writer close) was performed. -/
  | waited
deriving DecidableEq, Repr

/-- `wait_closed` (rpc.py lines 278-324): return at once when the latch is
set; otherwise set the latch, then raise when `_closing` is still false,
and otherwise perform the full wait. -/
def waitClosed (st : EndpointState) : EndpointState × WaitClosedOutcome :=
  if st.didWaitClosed then
    (st, WaitClosedOutcome.alreadyDone)
  else
    let st1 := { st with didWaitClosed := true }
    if st1.closing = false then
      (st1, WaitClosedOutcome.raisedRuntimeError)
    else
      (st1, WaitClosedOutcome.waited)

/-- The RESPONSE packet built by `_handle_raw_message` (rpc.py lines
498-502): tag byte `_PacketType.RESPONSE.value = 3`, the original message
id as a big-endian u16, the response length as a big-endian u16, then the
response bytes. -/
def handleRawMessageResponse (messageId : Nat) (response : List Nat) : List Nat :=
  3 :: (toBytes2 messageId ++ toBytes2 response.length ++ response)

/-- One endpoint operation among those that touch the modelled state: the
synchronous section of a `send_message` call, delivery of a RESPONSE
packet by the reader, the timeout or external-cancellation endings of a
pending `send_message`, `close`, and `wait_closed`. -/
inductive EndpointOp
  | send (message : List Nat)
  | respond (messageId : Nat) (response : List Nat)
  | timeoutEnd (messageId : Nat)
  | cancelEnd (messageId : Nat)
  | closeOp
  | waitClosedOp
deriving DecidableEq, Repr

/-- Apply one operation; for a `send` that reaches the id-allocation
lines 205-206 of rpc.py (that is, one that passes the size and closing
checks), also report the allocated id.  A send that fails the line-215
assert has still allocated its id before the assert runs. -/
def applyOp (st : EndpointState) : EndpointOp → EndpointState × Option Nat
  | EndpointOp.send m =>
      let r := sendMessageStart st m
      match r.2.1 with
      | SendResult.accepted id => (r.1, some id)
      | SendResult.assertionFailed => (r.1, some st.nextMessageId)
      | _ => (r.1, none)
  | EndpointOp.respond id rsp => ((handleResponsePacket st id rsp).1, none)
  | EndpointOp.timeoutEnd id => (sendMessageTimeoutBranch st id, none)
  | EndpointOp.cancelEnd id => (sendMessageCancelBranch st id, none)
  | EndpointOp.closeOp => (closeEndpoint st, none)
  | EndpointOp.waitClosedOp => ((waitClosed st).1, none)

/-- Run a list of operations, collecting the allocated message ids in
order. -/
def runOps : EndpointState → List EndpointOp → EndpointState × List Nat
  | st, [] => (st, [])
  | st, op :: rest =>
      let r := applyOp st op
      let rr := runOps r.1 rest
      (rr.1, r.2.toList ++ rr.2)

/-- One complete successful round trip of `send_message` with an empty
payload: the synchronous send section, then `_handle_response_packet`
delivering the one-byte response `[0]`, then the success return of
`send_message`.  Used to trace the in-flight table across many completed
calls. -/
def successCycle (st : EndpointState) : EndpointState :=
  match sendMessageStart st [] with
  | (st1, SendResult.accepted id, _) =>
      (sendMessageSuccessReturn (handleResponsePacket st1 id [0]).1 id).1
  | (st1, _, _) => st1

/-- The endpoint state after `k` successful round trips from a fresh
endpoint. -/
def successRun : Nat → EndpointState
  | 0 => initialEndpoint
  | k + 1 => successCycle (successRun k)

/-- Decode-level characterization of a framed packet carrying an id and a
payload behind a one-byte tag: five header bytes; the tag at index 0; the
id recoverable big-endian from indices 1-2; the payload length recoverable
big-endian from indices 3-4; every header byte a byte; the payload bytes
from index 5 on.  Stated with decoding arithmetic rather than by repeating
the encoder, so that proving it of the encoder is meaningful. -/
def packetLayoutOk (tag : Nat) (id : Nat) (payload : List Nat) (p : List Nat) : Prop :=
  p.length = 5 + payload.length ∧
  p[0]? = some tag ∧
  256 * (p[1]?.getD 0) + p[2]?.getD 0 = id ∧
  p[1]?.getD 0 < 256 ∧ p[2]?.getD 0 < 256 ∧
  256 * (p[3]?.getD 0) + p[4]?.getD 0 = payload.length ∧
  p[3]?.getD 0 < 256 ∧ p[4]?.getD 0 < 256 ∧
  p.drop 5 = payload

/-! ### Helper lemmas about association-list lookup -/

theorem lookup_eq_none_of_not_mem_keys {β : Type} {l : List (Nat × β)} {a : Nat}
    (h : a ∉ l.map Prod.fst) : l.lookup a = none := by
  induction l with
  | nil => rfl
  | cons e t ih =>
      simp only [List.map_cons, List.mem_cons, not_or] at h
      have hne : (a == e.1) = false := beq_eq_false_iff_ne.mpr h.1
      simp only [List.lookup, hne]
      exact ih h.2

theorem lookup_isSome_of_mem_keys {β : Type} {l : List (Nat × β)} {a : Nat}
    (h : a ∈ l.map Prod.fst) : (l.lookup a).isSome = true := by
  induction l with
  | nil => simp at h
  | cons e t ih =>
      simp only [List.map_cons, List.mem_cons] at h
      rcases h with h | h
      · have heq : (a == e.1) = true := beq_iff_eq.mpr h
        simp [List.lookup, heq]
      · cases hae : a == e.1
        · simp only [List.lookup, hae]
          exact ih h
        · simp [List.lookup, hae]

theorem lookup_append_singleton {β : Type} {l : List (Nat × β)} {a : Nat} {v : β}
    (h : l.lookup a = none) : (l ++ [(a, v)]).lookup a = some v := by
  induction l with
  | nil => simp [List.lookup]
  | cons e t ih =>
      cases hae : a == e.1
      · simp only [List.lookup, hae] at h
        simp only [List.cons_append, List.lookup, hae]
        exact ih h
      · simp only [List.lookup, hae] at h
        exact absurd h (by simp)

/-! ### Unfolding equations for the synchronous section of `send_message` -/

/-- When the size check, the closing check and the line-215 assert all
pass, `send_message`'s synchronous section allocates the current
`_next_message_id`, bumps the counter modulo 2^16, enqueues the MESSAGE
packet and appends a pending in-flight entry, in that order. -/
theorem sendMessageStart_accepted (st : EndpointState) (msg : List Nat)
    (hlen : msg.length ≤ 65535) (hcl : st.closing = false)
    (hlk : st.inFlight.lookup st.nextMessageId = none) :
    sendMessageStart st msg =
      ({ st with
          nextMessageId := (st.nextMessageId + 1) % 65536
          outPackets := st.outPackets ++
            [2 :: (toBytes2 st.nextMessageId ++ toBytes2 msg.length ++ msg)]
          haveOutPackets := true
          inFlight := st.inFlight ++ [(st.nextMessageId, none)] },
       SendResult.accepted st.nextMessageId,
       [SendEvent.enqueuePacket
          (2 :: (toBytes2 st.nextMessageId ++ toBytes2 msg.length ++ msg)),
        SendEvent.tableInsert st.nextMessageId]) := by
  unfold sendMessageStart enqueueOutgoingPacket
  rw [if_neg (by omega), if_neg (by simp [hcl])]
  simp [hlk]

/-- When the size and closing checks pass but the id is still present in
the in-flight table, the line-215 assert fails; the counter bump and the
packet enqueue have already happened by then. -/
theorem sendMessageStart_assertFailed (st : EndpointState) (msg : List Nat)
    (hlen : msg.length ≤ 65535) (hcl : st.closing = false)
    (hlk : (st.inFlight.lookup st.nextMessageId).isSome = true) :
    sendMessageStart st msg =
      ({ st with
          nextMessageId := (st.nextMessageId + 1) % 65536
          outPackets := st.outPackets ++
            [2 :: (toBytes2 st.nextMessageId ++ toBytes2 msg.length ++ msg)]
          haveOutPackets := true },
       SendResult.assertionFailed,
       [SendEvent.enqueuePacket
          (2 :: (toBytes2 st.nextMessageId ++ toBytes2 msg.length ++ msg))]) := by
  unfold sendMessageStart enqueueOutgoingPacket
  rw [if_neg (by omega), if_neg (by simp [hcl])]
  simp [hlk]

/-! ### Claim theorems -/

/-- Claim C6: a message longer than 65535 bytes is rejected synchronously
with the invalid-argument error (`RuntimeError`, rpc.py line 199) and the
endpoint state is completely unchanged: no id allocated, no table entry,
no packet enqueued (the event trace is empty). -/
theorem c6_oversize_rejected_no_mutation (st : EndpointState) (msg : List Nat)
    (h : msg.length > 65535) :
    sendMessageStart st msg = (st, SendResult.invalidArgument, []) := by
  unfold sendMessageStart
  rw [if_pos h]

theorem c6_oversize_rejected_no_mutation_witness :
    (List.replicate 65536 (0 : Nat)).length > 65535 ∧
    sendMessageStart initialEndpoint (List.replicate 65536 (0 : Nat)) =
      (initialEndpoint, SendResult.invalidArgument, []) :=
  ⟨by simp only [List.length_replicate]; omega,
   c6_oversize_rejected_no_mutation initialEndpoint _
     (by simp only [List.length_replicate]; omega)⟩

/-- Claim C9: a RESPONSE packet whose id is absent from the in-flight
table is silently ignored; the endpoint state is exactly unchanged (only
a debug print happens, rpc.py lines 395-401), so the endpoint keeps
operating as before. -/
theorem c9_late_response_silently_ignored (st : EndpointState) (msgid : Nat)
    (rsp : List Nat) (h : st.inFlight.lookup msgid = none) :
    handleResponsePacket st msgid rsp = (st, ResponseHandling.ignored) := by
  unfold handleResponsePacket
  rw [h]

theorem c9_late_response_silently_ignored_witness :
    initialEndpoint.inFlight.lookup 65531 = none ∧
    handleResponsePacket initialEndpoint 65531 [] =
      (initialEndpoint, ResponseHandling.ignored) :=
  ⟨rfl, c9_late_response_silently_ignored initialEndpoint 65531 [] rfl⟩

/-- Claim C10: in `send_message` the size check (rpc.py line 198) precedes
the closing check (line 201): an oversize message raises the
invalid-argument error regardless of the closing flag, and a closing
endpoint raises the communication error exactly for messages of 65535
bytes or fewer. -/
theorem c10_size_check_precedes_closing_check (st : EndpointState) (msg : List Nat) :
    (msg.length > 65535 →
      (sendMessageStart st msg).2.1 = SendResult.invalidArgument) ∧
    (st.closing = true → msg.length ≤ 65535 →
      (sendMessageStart st msg).2.1 = SendResult.communicationError) := by
  constructor
  · intro h
    unfold sendMessageStart
    rw [if_pos h]
  · intro hcl hlen
    unfold sendMessageStart
    rw [if_neg (by omega), if_pos hcl]

theorem c10_size_check_precedes_closing_check_witness :
    ((List.replicate 65536 (0 : Nat)).length > 65535 ∧
      (sendMessageStart (closeEndpoint initialEndpoint)
          (List.replicate 65536 (0 : Nat))).2.1 = SendResult.invalidArgument) ∧
    ((closeEndpoint initialEndpoint).closing = true ∧
      (sendMessageStart (closeEndpoint initialEndpoint) []).2.1 =
        SendResult.communicationError) :=
  ⟨⟨by simp only [List.length_replicate]; omega,
    (c10_size_check_precedes_closing_check (closeEndpoint initialEndpoint) _).1
      (by simp only [List.length_replicate]; omega)⟩,
   ⟨by decide,
    (c10_size_check_precedes_closing_check (closeEndpoint initialEndpoint) []).2
      (by decide) (by decide)⟩⟩

/-- Claim C5 counterexample: on a closing endpoint, a 65536-byte message
does not fail with the communication error: the size check runs first and
raises the invalid-argument `RuntimeError` instead, so the claim's "for
every byte sequence" is false. -/
theorem c5_counterexample :
    (closeEndpoint initialEndpoint).closing = true ∧
    (sendMessageStart (closeEndpoint initialEndpoint)
        (List.replicate 65536 (0 : Nat))).2.1 = SendResult.invalidArgument ∧
    SendResult.invalidArgument ≠ SendResult.communicationError := by
  refine ⟨by decide, ?_, by decide⟩
  unfold sendMessageStart
  rw [if_pos (by simp only [List.length_replicate]; omega)]

/-- Claim C5 (amended): for every byte sequence of at most 65535 bytes
passed to `send_message` while the endpoint is closing, the call fails
immediately with the communication error and no state is mutated: no id
is allocated, no packet is enqueued, no table entry is created. -/
theorem c5_closing_rejects_without_mutation (st : EndpointState) (msg : List Nat)
    (hcl : st.closing = true) (hlen : msg.length ≤ 65535) :
    sendMessageStart st msg = (st, SendResult.communicationError, []) := by
  unfold sendMessageStart
  rw [if_neg (by omega), if_pos hcl]

theorem c5_closing_rejects_without_mutation_witness :
    (closeEndpoint initialEndpoint).closing = true ∧
    ([] : List Nat).length ≤ 65535 ∧
    sendMessageStart (closeEndpoint initialEndpoint) [] =
      (closeEndpoint initialEndpoint, SendResult.communicationError, []) :=
  ⟨by decide, by decide,
   c5_closing_rejects_without_mutation (closeEndpoint initialEndpoint) []
     (by decide) (by decide)⟩

/-- Claim C2 counterexample: for the first accepted message on a fresh
endpoint, the program-order event trace of `send_message` is the packet
enqueue (rpc.py lines 209-212) followed by the table insert (line 216):
the insert does not happen before the enqueue, so the claimed
insert-happens-before-enqueue ordering is false. -/
theorem c2_counterexample :
    (sendMessageStart initialEndpoint []).2.2 =
      [SendEvent.enqueuePacket [2, 255, 250, 0, 0], SendEvent.tableInsert 65530] ∧
    ¬ ((sendMessageStart initialEndpoint []).2.2.indexOf (SendEvent.tableInsert 65530) <
        (sendMessageStart initialEndpoint []).2.2.indexOf
          (SendEvent.enqueuePacket [2, 255, 250, 0, 0])) := by
  decide

/-- Claim C2 (amended): within `send_message`, for every accepted message
the MESSAGE packet enqueue happens before the in-flight table insert in
program order (both within one synchronous section, so within a single
correlation id a response still cannot be observed before the request is
enqueued). -/
theorem c2_enqueue_precedes_insert (st : EndpointState) (msg : List Nat)
    (hlen : msg.length ≤ 65535) (hcl : st.closing = false)
    (hlk : st.inFlight.lookup st.nextMessageId = none) :
    (sendMessageStart st msg).2.1 = SendResult.accepted st.nextMessageId ∧
    (sendMessageStart st msg).2.2 =
      [SendEvent.enqueuePacket
        (2 :: (toBytes2 st.nextMessageId ++ toBytes2 msg.length ++ msg)),
       SendEvent.tableInsert st.nextMessageId] := by
  rw [sendMessageStart_accepted st msg hlen hcl hlk]
  exact ⟨rfl, rfl⟩

theorem c2_enqueue_precedes_insert_witness :
    ([] : List Nat).length ≤ 65535 ∧
    initialEndpoint.closing = false ∧
    initialEndpoint.inFlight.lookup initialEndpoint.nextMessageId = none ∧
    (sendMessageStart initialEndpoint []).2.2 =
      [SendEvent.enqueuePacket
        (2 :: (toBytes2 initialEndpoint.nextMessageId ++ toBytes2 ([] : List Nat).length ++ [])),
       SendEvent.tableInsert initialEndpoint.nextMessageId] :=
  ⟨by decide, rfl, rfl,
   (c2_enqueue_precedes_insert initialEndpoint [] (by decide) rfl rfl).2⟩

/-- Claim C4 counterexample: calling `wait_closed` on a fresh endpoint
(before `close`) raises the runtime error but has already set the
did-wait-closed latch while the closing flag is still false, and a later
`wait_closed` after `close` returns immediately instead of performing the
full wait. -/
theorem c4_counterexample :
    (waitClosed initialEndpoint).2 = WaitClosedOutcome.raisedRuntimeError ∧
    (waitClosed initialEndpoint).1.didWaitClosed = true ∧
    (waitClosed initialEndpoint).1.closing = false ∧
    (waitClosed (closeEndpoint (waitClosed initialEndpoint).1)).2 =
      WaitClosedOutcome.alreadyDone := by
  decide

/-- Claim C4 (amended): the did-wait-closed flag only transitions false to
true (no modelled operation clears it, and `wait_closed` always leaves it
true), but it is set on the first entry to `wait_closed` even when the
closing flag is still false; `wait_closed` called before `close()` raises
the runtime error and latches, so a later `wait_closed` after `close()`
returns immediately (`alreadyDone`) instead of performing the full
wait. -/
theorem c4_latch_set_on_first_entry (st : EndpointState) :
    (waitClosed st).1.didWaitClosed = true ∧
    (st.didWaitClosed = true →
      (closeEndpoint st).didWaitClosed = true ∧
      (∀ m, (sendMessageStart st m).1.didWaitClosed = true) ∧
      (∀ id rsp, (handleResponsePacket st id rsp).1.didWaitClosed = true) ∧
      (∀ id, (sendMessageTimeoutBranch st id).didWaitClosed = true) ∧
      (∀ id, (sendMessageCancelBranch st id).didWaitClosed = true)) ∧
    (st.didWaitClosed = false → st.closing = false →
      (waitClosed st).2 = WaitClosedOutcome.raisedRuntimeError ∧
      (waitClosed st).1.closing = false ∧
      (waitClosed (closeEndpoint (waitClosed st).1)).2 =
        WaitClosedOutcome.alreadyDone) := by
  refine ⟨?_, ?_, ?_⟩
  · simp only [waitClosed]
    split_ifs with h1
    · simpa using h1
    · rfl
    · rfl
  · intro h
    refine ⟨?_, ?_, ?_, fun id => by simp [sendMessageTimeoutBranch, h],
      fun id => by simp [sendMessageCancelBranch, h]⟩
    · unfold closeEndpoint
      split_ifs <;> simp [h]
    · intro m
      simp only [sendMessageStart, enqueueOutgoingPacket]
      split_ifs <;> simp [h]
    · intro id rsp
      unfold handleResponsePacket
      rcases hl : st.inFlight.lookup id with _ | (_ | r) <;> simp [hl, h]
  · intro h1 h2
    simp [waitClosed, closeEndpoint, h1, h2]

theorem c4_latch_set_on_first_entry_witness :
    initialEndpoint.didWaitClosed = false ∧
    initialEndpoint.closing = false ∧
    ((waitClosed initialEndpoint).2 = WaitClosedOutcome.raisedRuntimeError ∧
      (waitClosed initialEndpoint).1.closing = false ∧
      (waitClosed (closeEndpoint (waitClosed initialEndpoint).1)).2 =
        WaitClosedOutcome.alreadyDone) :=
  ⟨rfl, rfl, (c4_latch_set_on_first_entry initialEndpoint).2.2 rfl rfl⟩

/-- Claim C3: the `except asyncio.CancelledError` branch of `send_message`
(rpc.py lines 231-234) raises the communication error but performs none of
the timeout path's cleanup: starting from a fresh endpoint with one
message in flight (id 65530), the cancellation branch leaves the state
unchanged — the in-flight entry stays and no waiter cancellation is
recorded — whereas the timeout branch (lines 235-246) removes the entry
and cancels the waiter. -/
theorem c3_cancel_branch_performs_no_cleanup :
    (((sendMessageStart initialEndpoint []).1.inFlight.lookup 65530).isSome = true) ∧
    sendMessageCancelBranch (sendMessageStart initialEndpoint []).1 65530 =
      (sendMessageStart initialEndpoint []).1 ∧
    (((sendMessageCancelBranch (sendMessageStart initialEndpoint []).1
        65530).inFlight.lookup 65530).isSome = true) ∧
    (sendMessageCancelBranch (sendMessageStart initialEndpoint []).1
        65530).cancelledWaiters = [] ∧
    (sendMessageTimeoutBranch (sendMessageStart initialEndpoint []).1
        65530).inFlight.lookup 65530 = none ∧
    (sendMessageTimeoutBranch (sendMessageStart initialEndpoint []).1
        65530).cancelledWaiters = [65530] := by
  decide

/-- The framed-packet encoding used by rpc.py (tag byte, big-endian u16
id, big-endian u16 length, payload) satisfies the decode-level layout
characterization whenever the id and length fit in 16 bits. -/
theorem packetLayoutOk_encode (tag id : Nat) (payload : List Nat)
    (hid : id < 65536) (hlen : payload.length ≤ 65535) :
    packetLayoutOk tag id payload
      (tag :: (toBytes2 id ++ toBytes2 payload.length ++ payload)) := by
  unfold packetLayoutOk toBytes2
  simp only [List.cons_append, List.nil_append, List.getElem?_cons_zero,
    List.getElem?_cons_succ, Option.getD_some, List.length_cons,
    List.drop_succ_cons, List.drop_zero]
  refine ⟨by omega, trivial, by omega, by omega, by omega, by omega, by omega,
    by omega, trivial⟩

/-- Claim C8: for every accepted message, the enqueued MESSAGE packet is
exactly the tag byte 2, the message id as a big-endian u16, the payload
length as a big-endian u16, then the payload bytes; the RESPONSE packet
built by `_handle_raw_message` has the same layout with tag byte 3 and the
original message's id. -/
theorem c8_wire_packet_layout (st : EndpointState) (msg : List Nat)
    (hlen : msg.length ≤ 65535) (hcl : st.closing = false)
    (hid : st.nextMessageId < 65536)
    (hlk : st.inFlight.lookup st.nextMessageId = none) :
    ((sendMessageStart st msg).1.outPackets =
        st.outPackets ++
          [2 :: (toBytes2 st.nextMessageId ++ toBytes2 msg.length ++ msg)] ∧
      packetLayoutOk 2 st.nextMessageId msg
        (2 :: (toBytes2 st.nextMessageId ++ toBytes2 msg.length ++ msg))) ∧
    (∀ id rsp, id < 65536 → rsp.length ≤ 65535 →
      packetLayoutOk 3 id rsp (handleRawMessageResponse id rsp)) := by
  refine ⟨⟨?_, packetLayoutOk_encode 2 st.nextMessageId msg hid hlen⟩,
    fun id rsp hid2 hlen2 => packetLayoutOk_encode 3 id rsp hid2 hlen2⟩
  rw [sendMessageStart_accepted st msg hlen hcl hlk]

theorem c8_wire_packet_layout_witness :
    ([97, 98, 99] : List Nat).length ≤ 65535 ∧
    initialEndpoint.closing = false ∧
    initialEndpoint.nextMessageId < 65536 ∧
    initialEndpoint.inFlight.lookup initialEndpoint.nextMessageId = none ∧
    packetLayoutOk 2 initialEndpoint.nextMessageId [97, 98, 99]
      (2 :: (toBytes2 initialEndpoint.nextMessageId ++
        toBytes2 ([97, 98, 99] : List Nat).length ++ [97, 98, 99])) ∧
    packetLayoutOk 3 65530 [65, 66, 67] (handleRawMessageResponse 65530 [65, 66, 67]) :=
  ⟨by decide, rfl, by decide, rfl,
   (c8_wire_packet_layout initialEndpoint [97, 98, 99] (by decide) rfl
      (by decide) rfl).1.2,
   (c8_wire_packet_layout initialEndpoint [97, 98, 99] (by decide) rfl
      (by decide) rfl).2 65530 [65, 66, 67] (by decide) (by decide)⟩

/-- Every modelled operation either leaves `_next_message_id` untouched
and allocates nothing, or (a `send_message` that reaches rpc.py lines
205-206) allocates exactly the current counter value and bumps the
counter by one modulo 2^16. -/
theorem applyOp_alloc (st : EndpointState) (op : EndpointOp) :
    ((applyOp st op).2 = none ∧
      (applyOp st op).1.nextMessageId = st.nextMessageId) ∨
    ((applyOp st op).2 = some st.nextMessageId ∧
      (applyOp st op).1.nextMessageId = (st.nextMessageId + 1) % 65536) := by
  cases op with
  | send m =>
      by_cases h1 : m.length > 65535
      · left
        simp [applyOp, sendMessageStart, h1]
      · by_cases h2 : st.closing = true
        · left
          simp [applyOp, sendMessageStart, h1, h2]
        · have hcl : st.closing = false := by simpa using h2
          rcases h3 : st.inFlight.lookup st.nextMessageId with _ | v
          · right
            simp [applyOp,
              sendMessageStart_accepted st m (by omega) hcl h3]
          · right
            have h3s : (st.inFlight.lookup st.nextMessageId).isSome = true := by
              rw [h3]; rfl
            simp [applyOp,
              sendMessageStart_assertFailed st m (by omega) hcl h3s]
  | respond id rsp =>
      left
      rcases hl : st.inFlight.lookup id with _ | (_ | r) <;>
        simp [applyOp, handleResponsePacket, hl]
  | timeoutEnd id =>
      left
      simp [applyOp, sendMessageTimeoutBranch]
  | cancelEnd id =>
      left
      simp [applyOp, sendMessageCancelBranch]
  | closeOp =>
      left
      refine ⟨rfl, ?_⟩
      simp only [applyOp, closeEndpoint]
      split_ifs <;> rfl
  | waitClosedOp =>
      left
      refine ⟨rfl, ?_⟩
      simp only [applyOp, waitClosed]
      split_ifs <;> rfl

/-- Starting from any state whose message-id counter is a 16-bit value,
the ids allocated along any operation sequence are consecutive values of
the counter modulo 2^16. -/
theorem runOps_id_sequence (ops : List EndpointOp) :
    ∀ st : EndpointState, st.nextMessageId < 65536 →
      (runOps st ops).2 =
        (List.range (runOps st ops).2.length).map
          (fun k => (st.nextMessageId + k) % 65536) := by
  induction ops with
  | nil => intro st h; rfl
  | cons op rest ih =>
      intro st h
      rcases applyOp_alloc st op with ⟨ha, hn⟩ | ⟨ha, hn⟩
      · simp only [runOps, ha, Option.toList_none, List.nil_append]
        have := ih (applyOp st op).1 (by rw [hn]; exact h)
        rw [this, hn]
        simp only [List.length_map, List.length_range]
      · simp only [runOps, ha, Option.toList_some, List.singleton_append]
        have h1 : (applyOp st op).1.nextMessageId < 65536 := by
          rw [hn]; exact Nat.mod_lt _ (by norm_num)
        have htail := ih (applyOp st op).1 h1
        rw [htail, hn]
        rw [List.length_cons, List.length_map, List.length_range,
          List.range_succ_eq_map]
        rw [List.map_cons, List.map_map]
        refine congrArg₂ List.cons (by omega) ?_
        refine List.map_congr_left fun k hk => ?_
        simp only [Function.comp_apply]
        omega

/-- Claim C7: on a fresh endpoint (counter initialized to 65530, rpc.py
line 136), along any operation sequence the allocated message ids are
exactly ((65530 + k) mod 65536) for k = 0..N-1, N the number of allocating
sends; in particular the seventh allocated id (index 6) is 0, so the ids
wrap through 0 after at most 6 further sends. -/
theorem c7_allocated_id_sequence (ops : List EndpointOp) :
    (runOps initialEndpoint ops).2 =
      (List.range (runOps initialEndpoint ops).2.length).map
        (fun k => (65530 + k) % 65536) ∧
    (6 < (runOps initialEndpoint ops).2.length →
      (runOps initialEndpoint ops).2[6]? = some 0) := by
  have h := runOps_id_sequence ops initialEndpoint (by decide)
  refine ⟨h, fun h6 => ?_⟩
  rw [h, List.getElem?_map, List.getElem?_range h6]
  rfl

theorem c7_allocated_id_sequence_witness :
    6 < (runOps initialEndpoint (List.replicate 7 (EndpointOp.send []))).2.length ∧
    (runOps initialEndpoint (List.replicate 7 (EndpointOp.send []))).2[6]? = some 0 :=
  ⟨by decide,
   (c7_allocated_id_sequence (List.replicate 7 (EndpointOp.send []))).2 (by decide)⟩

/-- Characterization of the endpoint state after `k ≤ 65536` complete
successful round trips: the in-flight table still holds one completed
entry per round trip (nothing removes them), the counter has advanced by
`k` modulo 2^16, and the endpoint is not closing. -/
theorem successRun_state (k : Nat) : k ≤ 65536 →
    (successRun k).inFlight =
      (List.range k).map (fun i => ((65530 + i) % 65536, some [0])) ∧
    (successRun k).nextMessageId = (65530 + k) % 65536 ∧
    (successRun k).closing = false := by
  induction k with
  | zero =>
      intro _
      exact ⟨rfl, by decide, rfl⟩
  | succ k ih =>
      intro hk
      obtain ⟨hif, hnm, hcl⟩ := ih (by omega)
      have hkey :
          (65530 + k) % 65536 ∉
            ((List.range k).map
              (fun i => ((65530 + i) % 65536, some ([0] : List Nat)))).map Prod.fst := by
        simp only [List.map_map, List.mem_map, List.mem_range, Function.comp_apply,
          not_exists, not_and]
        intro i hi
        omega
      have hlk2 :
          (successRun k).inFlight.lookup (successRun k).nextMessageId = none := by
        rw [hnm, hif]
        exact lookup_eq_none_of_not_mem_keys hkey
      have hsend := sendMessageStart_accepted (successRun k) [] (by simp) hcl hlk2
      have hcyc :
          successRun (k + 1) =
            (sendMessageSuccessReturn
              (handleResponsePacket (sendMessageStart (successRun k) []).1
                (successRun k).nextMessageId [0]).1
              (successRun k).nextMessageId).1 := by
        show successCycle (successRun k) = _
        unfold successCycle
        rw [hsend]
      have hstA_if :
          (sendMessageStart (successRun k) []).1.inFlight =
            (successRun k).inFlight ++ [((successRun k).nextMessageId, none)] := by
        rw [hsend]
      have hstA_nm :
          (sendMessageStart (successRun k) []).1.nextMessageId =
            ((successRun k).nextMessageId + 1) % 65536 := by
        rw [hsend]
      have hstA_cl : (sendMessageStart (successRun k) []).1.closing = false := by
        rw [hsend]
        exact hcl
      have hlkA :
          (sendMessageStart (successRun k) []).1.inFlight.lookup
            (successRun k).nextMessageId = some none := by
        rw [hstA_if]
        exact lookup_append_singleton hlk2
      have hresp :
          handleResponsePacket (sendMessageStart (successRun k) []).1
            (successRun k).nextMessageId [0] =
            ({ (sendMessageStart (successRun k) []).1 with
               inFlight :=
                 (sendMessageStart (successRun k) []).1.inFlight.map
                   (fun e =>
                     if e.1 = (successRun k).nextMessageId then (e.1, some [0])
                     else e) },
             ResponseHandling.delivered) := by
        unfold handleResponsePacket
        rw [hlkA]
      refine ⟨?_, ?_, ?_⟩
      · rw [hcyc, hresp]
        show (sendMessageStart (successRun k) []).1.inFlight.map _ = _
        rw [hstA_if, List.map_append, hif, hnm, List.map_map]
        rw [List.range_succ, List.map_append]
        refine congrArg₂ (· ++ ·) ?_ ?_
        · refine List.map_congr_left fun i hi => ?_
          rw [List.mem_range] at hi
          simp only [Function.comp_apply]
          rw [if_neg (by omega)]
        · simp
      · rw [hcyc, hresp]
        show (sendMessageStart (successRun k) []).1.nextMessageId = _
        rw [hstA_nm, hnm]
        omega
      · rw [hcyc, hresp]
        show (sendMessageStart (successRun k) []).1.closing = false
        exact hstA_cl

/-- Claim C1: the in-flight table entry of a completed `send_message` call
is not removed.  On a fresh endpoint the message accepted with id 65530
receives its response and `send_message` returns it, yet the entry for
65530 is still in the table afterwards; consequently, after 65536
completed round trips the `assert message_id not in
self._in_flight_messages` at rpc.py line 215 itself fails, because the
wrapped id is still occupied by a long-completed call. -/
theorem c1_completed_call_entry_not_removed :
    (sendMessageStart initialEndpoint [97, 98, 99]).2.1 = SendResult.accepted 65530 ∧
    (handleResponsePacket (sendMessageStart initialEndpoint [97, 98, 99]).1 65530
        [65, 66, 67]).2 = ResponseHandling.delivered ∧
    (sendMessageSuccessReturn
        (handleResponsePacket (sendMessageStart initialEndpoint [97, 98, 99]).1 65530
          [65, 66, 67]).1 65530).2 = some [65, 66, 67] ∧
    ((sendMessageSuccessReturn
        (handleResponsePacket (sendMessageStart initialEndpoint [97, 98, 99]).1 65530
          [65, 66, 67]).1 65530).1.inFlight.lookup 65530).isSome = true ∧
    (sendMessageStart (successRun 65536) []).2.1 = SendResult.assertionFailed := by
  refine ⟨by decide, by decide, by decide, by decide, ?_⟩
  obtain ⟨hif, hnm, hcl⟩ := successRun_state 65536 le_rfl
  have hnm65530 : (successRun 65536).nextMessageId = 65530 := by
    rw [hnm]
  have hmem : (65530 : Nat) ∈ ((successRun 65536).inFlight).map Prod.fst := by
    rw [hif]
    simp only [List.map_map]
    exact List.mem_map.mpr ⟨0, List.mem_range.mpr (by norm_num), rfl⟩
  have hlks :
      ((successRun 65536).inFlight.lookup
        (successRun 65536).nextMessageId).isSome = true := by
    rw [hnm65530]
    exact lookup_isSome_of_mem_keys hmem
  rw [sendMessageStart_assertFailed (successRun 65536) [] (by simp) hcl hlks]
